import Mathlib

/-!
# Verification of the finance transaction-classification service

Shallow embedding of the two implementation variants found in the repository:

* `src/ml-service/main.py` — a self-contained service with rule-based merchant
  and category detection and a z-score anomaly function
  (`detect_merchant_simple`, `detect_category_simple`, `detect_anomaly_zscore`,
  and the `/v1/detect/anomaly` endpoint that attaches a confidence).
* `src/python-ml/app` — LLM-backed detectors (`MerchantDetector`,
  `CategoryDetector`, `AnomalyDetector`, `detect_merchants_batch`) with
  pydantic result models.

Modelling conventions:

* Python floats are modelled as elements of an arbitrary linear ordered field
  `K` (instantiated at `ℚ` or `ℝ` in concrete statements); machine rounding is
  out of scope.
* `numpy.std` (population) and `statistics.stdev` (sample) return the square
  root of the corresponding variance.  Square roots of rationals are
  irrational in general, so each detector takes the standard deviation `std`
  as an explicit argument; theorems constrain it by `0 ≤ std` and
  `std ^ 2 = popVar hist` (resp. `sampleVar hist`), which characterises the
  square root exactly.
* The external generative-model call together with `json.loads` is modelled as
  an oracle `classify : Transaction → Except LLMError _Raw`; a transport
  failure or an unparseable body is `.error`, a parsed JSON object is `.ok`
  with each expected key an `Option` field (Python's `result["key"]` raises
  `KeyError` on a missing key, modelled as `.error (.missingField key)`).
* Python f-strings that interpolate formatted numbers are modelled as
  constructors of a reason type carrying the interpolated values.
-/

set_option maxHeartbeats 1000000

/-! ## String helpers mirroring the Python primitives used by the code -/

/-- `pat` occurs as a contiguous run inside `s` (Python `pat in s` on `str`,
viewed on character lists). -/
def listContainsSub (s pat : List Char) : Bool :=
  match s with
  | [] => pat.isEmpty
  | c :: t => pat.isPrefixOf (c :: t) || listContainsSub t pat

/-- Python `pat in s` for strings. -/
def strContains (s pat : String) : Bool :=
  listContainsSub s.toList pat.toList

/-- Python `str.upper()` (ASCII-relevant part), as a character map. -/
def pyUpper (s : String) : String :=
  (s.toList.map Char.toUpper).asString

/-- Python `str.lower()` (ASCII-relevant part), as a character map. -/
def pyLower (s : String) : String :=
  (s.toList.map Char.toLower).asString

/-- Python `str.split()` with no argument: split on whitespace and drop the
empty fields. -/
def pySplit (s : String) : List String :=
  ((s.toList.splitOnP Char.isWhitespace).filter (fun w => !w.isEmpty)).map
    List.asString

/-! ## Statistics helpers (`numpy.mean` / `statistics.mean`,
`numpy.std` = population variance, `statistics.stdev` = sample variance) -/

variable {K : Type} [LinearOrderedField K]

/-- Arithmetic mean of a list (`numpy.mean` / `statistics.mean`). -/
def mean (xs : List K) : K := xs.sum / (xs.length : K)

/-- Population variance, the square of `numpy.std` used by
`python-ml/app/detectors/anomaly.py`. -/
def popVar (xs : List K) : K :=
  ((xs.map fun x => (x - mean xs) ^ 2).sum) / (xs.length : K)

/-- Sample variance, the square of `statistics.stdev` used by
`ml-service/main.py`. -/
def sampleVar (xs : List K) : K :=
  ((xs.map fun x => (x - mean xs) ^ 2).sum) / ((xs.length : K) - 1)

/-! ## ml-service/main.py -/

/-- `MERCHANT_PATTERNS` dict of `main.py` lines 61-69, in insertion order
(Python dicts iterate in insertion order). -/
def MERCHANT_PATTERNS : List (String × String) :=
  [("STARBUCKS", "starbucks"), ("AMAZON", "amazon"), ("UBER", "uber"),
   ("NETFLIX", "netflix"), ("SPOTIFY", "spotify"), ("TARGET", "target"),
   ("WALMART", "walmart")]

/-- `CATEGORY_RULES` dict of `main.py` lines 72-80. -/
def CATEGORY_RULES_SIMPLE : List (String × String) :=
  [("starbucks", "cafe"), ("amazon", "online-shopping"),
   ("uber", "transportation"), ("netflix", "entertainment"),
   ("spotify", "entertainment"), ("target", "retail"), ("walmart", "retail")]

/-- `detect_merchant_simple` (`main.py` lines 82-92): first pattern that is a
substring of the uppercased description wins with confidence `0.95`;
otherwise the lowercased first word (or `"UNKNOWN"`) with confidence `0.30`. -/
def detect_merchant_simple (description : String) : String × ℚ :=
  match MERCHANT_PATTERNS.find? (fun pm => strContains (pyUpper description) pm.1) with
  | some pm => (pm.2, 95/100)
  | none => (pyLower ((pySplit description).headD "UNKNOWN"), 30/100)

/-- The `/v1/detect/merchant` endpoint response (`main.py` lines 144-157):
the method tag is the constant string `"pattern-matching"`. -/
structure MerchantResponse where
  merchant : String
  confidence : ℚ
  method : String
deriving DecidableEq

/-- `detect_merchant` endpoint (`main.py` lines 144-157). -/
def detect_merchant_endpoint (description : String) : MerchantResponse :=
  { merchant := (detect_merchant_simple description).1,
    confidence := (detect_merchant_simple description).2,
    method := "pattern-matching" }

/-- `detect_category_simple` (`main.py` lines 94-100). -/
def detect_category_simple (merchant : String) : String × ℚ :=
  match CATEGORY_RULES_SIMPLE.lookup merchant with
  | some c => (c, 95/100)
  | none => ("uncategorized", 30/100)

/-- The reason strings produced by `detect_anomaly_zscore`; the Python
f-strings interpolate the shown numeric payloads. -/
inductive MLReason (K : Type) where
  | insufficientData : MLReason K
  | differsFromConstant (amount mean : K) : MLReason K
  | stdDevsFromMean (amount zscore mean : K) : MLReason K
deriving DecidableEq

/-- `detect_anomaly_zscore` (`main.py` lines 102-129).  `stdev` is the value
of `statistics.stdev(historical_amounts)` (sample standard deviation), passed
explicitly; it is only consulted after the length guard, exactly as in the
source.  Returns `(is_anomaly, anomaly_score, reason)`. -/
def detect_anomaly_zscore (amount : K) (hist : List K) (stdev : K) :
    Bool × K × Option (MLReason K) :=
  if hist.length < 3 then (false, 0, some MLReason.insufficientData)
  else if stdev = 0 then
    (decide (amount ≠ mean hist),
     if amount ≠ mean hist then 1 else 0,
     if amount ≠ mean hist then
       some (MLReason.differsFromConstant amount (mean hist))
     else none)
  else
    (decide (2 < |amount - mean hist| / stdev),
     min (|amount - mean hist| / stdev / 3) 1,
     if 2 < |amount - mean hist| / stdev then
       some (MLReason.stdDevsFromMean amount (|amount - mean hist| / stdev)
         (mean hist))
     else none)

/-- The `/v1/detect/anomaly` endpoint response (`main.py` lines 48-54). -/
structure AnomalyResponse (K : Type) where
  is_anomaly : Bool
  anomaly_score : K
  confidence : K
  method : String
  reason : Option (MLReason K)
deriving DecidableEq

/-- `detect_anomaly` endpoint (`main.py` lines 183-201): wraps
`detect_anomaly_zscore` and attaches `confidence = 0.85` when at least 10
historical points were supplied, else `0.60`. -/
def detect_anomaly_mlservice (amount : K) (hist : List K) (stdev : K) :
    AnomalyResponse K :=
  { is_anomaly := (detect_anomaly_zscore amount hist stdev).1,
    anomaly_score := (detect_anomaly_zscore amount hist stdev).2.1,
    confidence := if 10 ≤ hist.length then 85/100 else 60/100,
    method := "zscore",
    reason := (detect_anomaly_zscore amount hist stdev).2.2 }

/-! ## python-ml/app: data model (`app/models.py`) -/

/-- `Transaction` (`app/models.py` lines 19-29). -/
structure Transaction where
  id : String
  description : String
  amount : ℚ
  date : String
  bank : Option String := none
deriving DecidableEq

/-- Failure kinds of the external classifier path: transport failure,
a body `json.loads` cannot parse, a `KeyError` on a required key, and a
pydantic bound violation on the parsed confidence. -/
inductive LLMError where
  | transport (msg : String)
  | unparseable
  | missingField (key : String)
  | validation (msg : String)
deriving DecidableEq

/-- A parsed JSON object from a merchant-extraction response; each expected
key may be absent. -/
structure MerchantRaw where
  merchant : Option String := none
  confidence : Option ℚ := none
  reasoning : Option String := none
deriving DecidableEq

/-- `MerchantDetection` (`app/models.py` lines 67-78); pydantic requires
`0 ≤ confidence ≤ 1`. -/
structure MerchantDetection where
  transaction_id : String
  merchant : String
  confidence : ℚ
  model : String
  reasoning : Option String := none
deriving DecidableEq

/-- `method` literal of `CategoryDetection` (`app/models.py` line 98). -/
inductive Method where
  | rule : Method
  | ml : Method
deriving DecidableEq

/-- `CategoryDetection` (`app/models.py` lines 92-101). -/
structure CategoryDetection where
  transaction_id : String
  category : String
  confidence : ℚ
  method : Method
  rule_id : Option String := none
  model : Option String := none
  reasoning : Option String := none
deriving DecidableEq

/-- A parsed JSON object from a category-classification response. -/
structure CategoryRaw where
  category : Option String := none
  confidence : Option ℚ := none
  reasoning : Option String := none
deriving DecidableEq

/-- The reason strings produced by `AnomalyDetector.detect`
(`app/detectors/anomaly.py` lines 45, 59, 69-75); the Python f-strings
interpolate the shown numeric payloads. -/
inductive AnomalyReason (K : Type) where
  | insufficientData : AnomalyReason K
  | identicalHistory : AnomalyReason K
  | deviatesFromMean (amount zscore mean : K) : AnomalyReason K
  | unusuallyHigh (threshold : K) : AnomalyReason K
  | unusuallyLow (threshold : K) : AnomalyReason K
deriving DecidableEq

/-- `AnomalyDetection` (`app/models.py` lines 116-123). -/
structure AnomalyDetection (K : Type) where
  transaction_id : String
  is_anomaly : Bool
  anomaly_score : K
  confidence : K
  reasons : List (AnomalyReason K)
deriving DecidableEq

/-- `Settings.anomaly_threshold` default (`app/config.py` line 34). -/
def settings_anomaly_threshold : ℚ := 5/2

/-! ## python-ml/app/detectors/merchant.py -/

/-- `MerchantDetector.detect` (`merchant.py` lines 50-93) together with the
provider calls `_detect_with_openai` / `_detect_with_anthropic` (lines
95-153): the detector unconditionally builds a prompt and consults the
provider (there is no rule table in this variant); the provider call plus
`json.loads` is the oracle `classify`; `result["merchant"]` and
`result["confidence"]` raise `KeyError` when absent; pydantic rejects a
confidence outside `[0, 1]` (`models.py` line 76).  The `except` block of
`detect` logs and re-raises, which is the identity on errors. -/
def MerchantDetector.detect
    (classify : Transaction → Except LLMError MerchantRaw)
    (mdl : String) (tx : Transaction) : Except LLMError MerchantDetection :=
  match classify tx with
  | .error e => .error e
  | .ok raw =>
    match raw.merchant with
    | none => .error (.missingField "merchant")
    | some m =>
      match raw.confidence with
      | none => .error (.missingField "confidence")
      | some c =>
        if 0 ≤ c ∧ c ≤ 1 then
          .ok { transaction_id := tx.id, merchant := m, confidence := c,
                model := mdl, reasoning := raw.reasoning }
        else .error (.validation "confidence out of range")

/-- The collection loop of `detect_merchants_batch` (`merchant.py` lines
213-225): walk the gathered per-transaction outcomes in order, appending
successes to the detections and an `(transaction id, error)` pair to the
error log for each failure. -/
def collectBatchResults :
    List (Transaction × Except LLMError MerchantDetection) →
    List MerchantDetection × List (String × LLMError)
  | [] => ([], [])
  | (tx, r) :: rest =>
    match r with
    | .error e =>
      ((collectBatchResults rest).1, (tx.id, e) :: (collectBatchResults rest).2)
    | .ok d =>
      (d :: (collectBatchResults rest).1, (collectBatchResults rest).2)

/-- `detect_merchants_batch` (`merchant.py` lines 192-225): one `detect`
task per transaction, gathered in input order (`asyncio.gather` preserves
task order); failures are filtered out and logged keyed by
`transactions[i].id`.  Returns `(detections, logged failures)`. -/
def detect_merchants_batch
    (classify : Transaction → Except LLMError MerchantRaw)
    (mdl : String) (txs : List Transaction) :
    List MerchantDetection × List (String × LLMError) :=
  collectBatchResults
    (txs.map fun tx => (tx, MerchantDetector.detect classify mdl tx))

/-! ## python-ml/app/detectors/category.py -/

/-- One entry of the `CATEGORY_RULES` table (`category.py` lines 13-19). -/
structure CategoryRuleEntry where
  category : String
  confidence : ℚ
  rule_id : String
deriving DecidableEq

/-- `CATEGORY_RULES` (`category.py` lines 13-19). -/
def CATEGORY_RULES : List (String × CategoryRuleEntry) :=
  [("starbucks", { category := "cafe", confidence := 98/100,
                   rule_id := "starbucks-rule" }),
   ("amazon", { category := "shopping", confidence := 95/100,
                rule_id := "amazon-rule" }),
   ("uber", { category := "transportation", confidence := 95/100,
              rule_id := "uber-rule" }),
   ("walmart", { category := "groceries", confidence := 90/100,
                 rule_id := "walmart-rule" })]

/-- The fixed category vocabulary embedded in the classification prompt
(`category.py` line 87). -/
def CATEGORY_VOCAB : List String :=
  ["cafe", "groceries", "shopping", "transportation", "utilities", "dining",
   "entertainment", "healthcare", "other"]

/-- `CategoryDetector._detect_with_llm` (`category.py` lines 68-124): consult
the classifier, parse `result["category"]` and `result["confidence"]`
(`KeyError` when absent), and return a `method = "ml"` detection carrying the
parsed category verbatim; pydantic rejects a confidence outside `[0, 1]`.
No comparison against the vocabulary occurs anywhere in this function. -/
def CategoryDetector.detect_with_llm
    (classify : Transaction → String → Except LLMError CategoryRaw)
    (mdl : String) (tx : Transaction) (merchant : String) :
    Except LLMError CategoryDetection :=
  match classify tx merchant with
  | .error e => .error e
  | .ok raw =>
    match raw.category with
    | none => .error (.missingField "category")
    | some c =>
      match raw.confidence with
      | none => .error (.missingField "confidence")
      | some conf =>
        if 0 ≤ conf ∧ conf ≤ 1 then
          .ok { transaction_id := tx.id, category := c, confidence := conf,
                method := Method.ml, rule_id := none, model := some mdl,
                reasoning := raw.reasoning }
        else .error (.validation "confidence out of range")

/-- `CategoryDetector.detect` (`category.py` lines 34-66): rule lookup keyed
by the resolved merchant; on a hit return the rule's category, confidence and
rule id with `method = "rule"` and the interpolated reasoning string; on a
miss fall back to the classifier. -/
def CategoryDetector.detect
    (classify : Transaction → String → Except LLMError CategoryRaw)
    (mdl : String) (tx : Transaction) (merchant : String) :
    Except LLMError CategoryDetection :=
  match CATEGORY_RULES.lookup merchant with
  | some rule =>
    .ok { transaction_id := tx.id, category := rule.category,
          confidence := rule.confidence, method := Method.rule,
          rule_id := some rule.rule_id, model := none,
          reasoning := some ("Merchant \x27" ++ merchant ++
            "\x27 matches rule " ++ rule.rule_id) }
  | none => CategoryDetector.detect_with_llm classify mdl tx merchant

/-! ## python-ml/app/detectors/anomaly.py -/

/-- `AnomalyDetector.detect` (`anomaly.py` lines 17-90).  `std` is the value
of `numpy.std(historical_amounts)` (population standard deviation), passed
explicitly.  The guard `if not historical_amounts or len(...) < 3` is the
single test `length < 3` (an empty list has length `0 < 3`).  In the z-score
branch `z = |amount - mean| / std`, the verdict is `z > threshold`, the score
is the raw `z`, and the confidence is `min(0.99, 0.50 + z / 10)`. -/
def AnomalyDetector.detect (threshold : K) (txId : String) (amount : K)
    (hist : List K) (std : K) : AnomalyDetection K :=
  if hist.length < 3 then
    { transaction_id := txId, is_anomaly := false, anomaly_score := 0,
      confidence := 10/100, reasons := [AnomalyReason.insufficientData] }
  else if std = 0 then
    { transaction_id := txId, is_anomaly := false, anomaly_score := 0,
      confidence := 50/100, reasons := [AnomalyReason.identicalHistory] }
  else
    { transaction_id := txId,
      is_anomaly := decide (threshold < |amount - mean hist| / std),
      anomaly_score := |amount - mean hist| / std,
      confidence := min (99/100) (50/100 + |amount - mean hist| / std / 10),
      reasons :=
        if threshold < |amount - mean hist| / std then
          AnomalyReason.deviatesFromMean amount (|amount - mean hist| / std)
              (mean hist) ::
            (if mean hist + threshold * std < amount then
               [AnomalyReason.unusuallyHigh threshold]
             else [AnomalyReason.unusuallyLow threshold])
        else [] }

/-! ## Concrete fixtures used by several claims -/

/-- The 10-point historical sample from the spec's testable properties. -/
def hist10 (K : Type) [LinearOrderedField K] : List K :=
  [10, 12, 11, 9, 10, 13, 10, 11, 9, 12]

/-- Example transaction built from the `models.py` example payload. -/
def starbucksTx : Transaction :=
  { id := "tx-sbux", description := "STARBUCKS #1234 SEATTLE WA",
    amount := 499/100, date := "2024-03-20", bank := none }

/-- A classifier oracle whose transport always fails. -/
def oracleDown : Transaction → Except LLMError MerchantRaw :=
  fun _ => .error (.transport "api down")

/-- A classifier oracle returning a parseable low-confidence merchant. -/
def oracleFoo : Transaction → Except LLMError MerchantRaw :=
  fun _ => .ok { merchant := some "foo", confidence := some (1/5),
                 reasoning := none }

/-- A category oracle returning a label outside the fixed vocabulary. -/
def oracleAlcohol : Transaction → String → Except LLMError CategoryRaw :=
  fun _ _ => .ok { category := some "alcohol", confidence := some (9/10),
                   reasoning := none }

/-- A category oracle returning another label outside the vocabulary. -/
def oraclePets : Transaction → String → Except LLMError CategoryRaw :=
  fun _ _ => .ok { category := some "pet-supplies", confidence := some (7/10),
                   reasoning := some "pet store" }

/-- Three transactions for the batch scenario. -/
def txA : Transaction :=
  { id := "t1", description := "SHOP ONE", amount := 10,
    date := "2024-01-01", bank := none }

/-- Second transaction of the batch scenario. -/
def txB : Transaction :=
  { id := "t2", description := "SHOP TWO", amount := 20,
    date := "2024-01-02", bank := none }

/-- Third transaction of the batch scenario. -/
def txC : Transaction :=
  { id := "t3", description := "SHOP THREE", amount := 30,
    date := "2024-01-03", bank := none }

/-- An oracle that fails exactly on the second batch transaction. -/
def oracleFailSecond : Transaction → Except LLMError MerchantRaw :=
  fun tx =>
    if tx.id = "t2" then .error (.transport "boom")
    else if tx.id = "t1" then
      .ok { merchant := some "m1", confidence := some (1/2), reasoning := none }
    else
      .ok { merchant := some "m3", confidence := some (1/2), reasoning := none }

/-! ## Helper lemmas -/

theorem mean_hist10 : mean (hist10 K) = 107/10 := by
  norm_num [mean, hist10]

theorem popVar_hist10 : popVar (hist10 K) = 161/100 := by
  norm_num [popVar, mean, hist10]

theorem sampleVar_hist10 : sampleVar (hist10 K) = 161/90 := by
  norm_num [sampleVar, mean, hist10]

theorem length_hist10 : (hist10 K).length = 10 := by simp [hist10]

/-- Zero-deviation branch of `AnomalyDetector.detect`. -/
theorem AnomalyDetector.detect_zero_std (thr : K) (txId : String) (a : K)
    (hist : List K) (h3 : 3 ≤ hist.length) :
    AnomalyDetector.detect thr txId a hist 0 =
      { transaction_id := txId, is_anomaly := false, anomaly_score := 0,
        confidence := 50/100, reasons := [AnomalyReason.identicalHistory] } := by
  unfold AnomalyDetector.detect
  rw [if_neg (by omega), if_pos rfl]

/-- Z-score branch of `AnomalyDetector.detect`. -/
theorem AnomalyDetector.detect_zscore_branch (thr : K) (txId : String) (a : K)
    (hist : List K) (std : K) (h3 : 3 ≤ hist.length) (h0 : std ≠ 0) :
    AnomalyDetector.detect thr txId a hist std =
      { transaction_id := txId,
        is_anomaly := decide (thr < |a - mean hist| / std),
        anomaly_score := |a - mean hist| / std,
        confidence := min (99/100) (50/100 + |a - mean hist| / std / 10),
        reasons :=
          if thr < |a - mean hist| / std then
            AnomalyReason.deviatesFromMean a (|a - mean hist| / std)
                (mean hist) ::
              (if mean hist + thr * std < a then
                 [AnomalyReason.unusuallyHigh thr]
               else [AnomalyReason.unusuallyLow thr])
          else [] } := by
  unfold AnomalyDetector.detect
  rw [if_neg (by omega), if_neg h0]

/-- Zero-deviation branch of `detect_anomaly_zscore`. -/
theorem detect_anomaly_zscore_zero_std (a : K) (hist : List K)
    (h3 : 3 ≤ hist.length) :
    detect_anomaly_zscore a hist 0 =
      (decide (a ≠ mean hist),
       if a ≠ mean hist then 1 else 0,
       if a ≠ mean hist then
         some (MLReason.differsFromConstant a (mean hist))
       else none) := by
  unfold detect_anomaly_zscore
  rw [if_neg (by omega), if_pos rfl]

/-- Z-score branch of `detect_anomaly_zscore`. -/
theorem detect_anomaly_zscore_branch (a : K) (hist : List K) (std : K)
    (h3 : 3 ≤ hist.length) (h0 : std ≠ 0) :
    detect_anomaly_zscore a hist std =
      (decide (2 < |a - mean hist| / std),
       min (|a - mean hist| / std / 3) 1,
       if 2 < |a - mean hist| / std then
         some (MLReason.stdDevsFromMean a (|a - mean hist| / std) (mean hist))
       else none) := by
  unfold detect_anomaly_zscore
  rw [if_neg (by omega), if_neg h0]

/-! ## Claims -/

/-- C1, counterexample: the cited `AnomalyDetector.detect`
(`python-ml/app/detectors/anomaly.py` lines 52-60) refutes the claim as
stated: for historical amounts `[10, 10, 10]` (population variance `0`, so
`numpy.std` is exactly `0`) and new amount `50`, which differs from the mean
`10`, the detector reports NOT anomalous with score `0`. -/
theorem C1_counterexample :
    popVar ([10, 10, 10] : List ℚ) = 0 ∧
    (50 : ℚ) ≠ mean ([10, 10, 10] : List ℚ) ∧
    (AnomalyDetector.detect settings_anomaly_threshold "tx-1" 50
        ([10, 10, 10] : List ℚ) 0).is_anomaly = false ∧
    (AnomalyDetector.detect settings_anomaly_threshold "tx-1" 50
        ([10, 10, 10] : List ℚ) 0).anomaly_score = 0 := by
  refine ⟨by norm_num [popVar, mean], by norm_num [mean], ?_, ?_⟩ <;>
    norm_num [AnomalyDetector.detect, settings_anomaly_threshold]

/-- C1, amended: in the zero-standard-deviation branch (sample of at least 3
points), the ml-service scorer `detect_anomaly_zscore` is anomalous iff the
amount differs from the mean, with score `0` when not anomalous and the fixed
sentinel `1.0` when anomalous — in particular `[10, 10, 10]` with new amount
`50` is anomalous with score `1`, and with new amount `10` it is not, with
score `0`; the python-ml `AnomalyDetector` instead always returns
not-anomalous with score `0` and confidence `0.50` in this branch. -/
theorem C1_thm :
    (∀ (K : Type) [inst : LinearOrderedField K] (a : K) (hist : List K),
      3 ≤ hist.length →
      detect_anomaly_zscore a hist 0 =
        (decide (a ≠ mean hist),
         if a ≠ mean hist then 1 else 0,
         if a ≠ mean hist then
           some (MLReason.differsFromConstant a (mean hist))
         else none)) ∧
    (detect_anomaly_zscore (50 : ℚ) ([10, 10, 10] : List ℚ) 0 =
      (true, 1, some (MLReason.differsFromConstant 50 10))) ∧
    (detect_anomaly_zscore (10 : ℚ) ([10, 10, 10] : List ℚ) 0 =
      (false, 0, none)) ∧
    (∀ (K : Type) [inst : LinearOrderedField K] (thr : K) (txId : String)
        (a : K) (hist : List K),
      3 ≤ hist.length →
      AnomalyDetector.detect thr txId a hist 0 =
        { transaction_id := txId, is_anomaly := false, anomaly_score := 0,
          confidence := 50/100,
          reasons := [AnomalyReason.identicalHistory] }) := by
  refine ⟨?_, ?_, ?_, ?_⟩
  · intro K inst a hist h3
    exact detect_anomaly_zscore_zero_std a hist h3
  · norm_num [detect_anomaly_zscore, mean]
  · norm_num [detect_anomaly_zscore, mean]
  · intro K inst thr txId a hist h3
    exact AnomalyDetector.detect_zero_std thr txId a hist h3

/-- C1, witness for the amended theorem at concrete inputs. -/
theorem C1_witness :
    detect_anomaly_zscore (7 : ℚ) ([4, 4, 4] : List ℚ) 0 =
      (decide ((7 : ℚ) ≠ mean ([4, 4, 4] : List ℚ)),
       if (7 : ℚ) ≠ mean ([4, 4, 4] : List ℚ) then 1 else 0,
       if (7 : ℚ) ≠ mean ([4, 4, 4] : List ℚ) then
         some (MLReason.differsFromConstant 7 (mean ([4, 4, 4] : List ℚ)))
       else none) ∧
    AnomalyDetector.detect (5/2 : ℚ) "t" (7 : ℚ) ([4, 4, 4] : List ℚ) 0 =
      { transaction_id := "t", is_anomaly := false, anomaly_score := 0,
        confidence := 50/100, reasons := [AnomalyReason.identicalHistory] } :=
  ⟨C1_thm.1 ℚ 7 [4, 4, 4] (by norm_num),
   C1_thm.2.2.2 ℚ (5/2) "t" 7 [4, 4, 4] (by norm_num)⟩

/-- C4, counterexample: the ml-service anomaly path violates the
confidence bound of the claim: for the 2-point history `[10, 20]` the
`/v1/detect/anomaly` response is not-anomalous with score `0` and the
insufficient-data reason, but its confidence is `0.60 > 0.5`
(`main.py` line 198). -/
theorem C4_counterexample :
    detect_anomaly_mlservice (100 : ℚ) ([10, 20] : List ℚ) 0 =
      { is_anomaly := false, anomaly_score := 0, confidence := 60/100,
        method := "zscore", reason := some MLReason.insufficientData } ∧
    ¬ ((60 : ℚ)/100 ≤ 1/2) := by
  constructor
  · norm_num [detect_anomaly_mlservice, detect_anomaly_zscore]
  · norm_num

/-- C4, amended: with fewer than 3 historical points both scorers degrade to
a not-anomalous result with score `0` and an insufficient-data reason rather
than raising; the python-ml `AnomalyDetector` reports confidence
`0.10 ≤ 0.5`, while the ml-service response attaches confidence
`0.60 > 0.5` (its under-10-sample constant). -/
theorem C4_thm :
    (∀ (K : Type) [inst : LinearOrderedField K] (thr : K) (txId : String)
        (a : K) (hist : List K) (std : K),
      hist.length < 3 →
      AnomalyDetector.detect thr txId a hist std =
        { transaction_id := txId, is_anomaly := false, anomaly_score := 0,
          confidence := 10/100,
          reasons := [AnomalyReason.insufficientData] } ∧
      (10/100 : K) ≤ 1/2) ∧
    (∀ (K : Type) [inst : LinearOrderedField K] (a : K) (hist : List K)
        (std : K),
      hist.length < 3 →
      detect_anomaly_zscore a hist std =
        (false, 0, some MLReason.insufficientData)) ∧
    (∀ (K : Type) [inst : LinearOrderedField K] (a : K) (hist : List K)
        (std : K),
      hist.length < 3 →
      (detect_anomaly_mlservice a hist std).confidence = 60/100) := by
  refine ⟨?_, ?_, ?_⟩
  · intro K inst thr txId a hist std h
    constructor
    · unfold AnomalyDetector.detect
      rw [if_pos h]
    · norm_num
  · intro K inst a hist std h
    unfold detect_anomaly_zscore
    rw [if_pos h]
  · intro K inst a hist std h
    unfold detect_anomaly_mlservice
    rw [if_neg (by omega)]

/-- C4, witness for the amended theorem at concrete inputs. -/
theorem C4_witness :
    (AnomalyDetector.detect (5/2 : ℚ) "t" (100 : ℚ) ([10, 20] : List ℚ) 0 =
      { transaction_id := "t", is_anomaly := false, anomaly_score := 0,
        confidence := 10/100,
        reasons := [AnomalyReason.insufficientData] } ∧
      (10/100 : ℚ) ≤ 1/2) ∧
    detect_anomaly_zscore (100 : ℚ) ([10, 20] : List ℚ) 0 =
      (false, 0, some MLReason.insufficientData) ∧
    (detect_anomaly_mlservice (100 : ℚ) ([10, 20] : List ℚ) 0).confidence =
      60/100 :=
  ⟨C4_thm.1 ℚ (5/2) "t" 100 [10, 20] 0 (by norm_num),
   C4_thm.2.1 ℚ 100 [10, 20] 0 (by norm_num),
   C4_thm.2.2 ℚ 100 [10, 20] 0 (by norm_num)⟩

/-- C5: with at least 3 points and non-zero standard deviation, both scorers
compute `z = |amount - mean| / stdev` and report an anomaly iff `z` strictly
exceeds the threshold (`z > threshold` in `anomaly.py` line 64,
`z > 2.0` in `main.py` line 122); the python-ml score is the raw `z`; the
configured default threshold is `2.5` and the ml-service constant is `2.0`,
both within `[2.0, 2.5]`.  `std` is constrained to be the exact square root
of the variance estimator each variant uses. -/
theorem C5_thm :
    (∀ (K : Type) [inst : LinearOrderedField K] (thr : K) (txId : String)
        (a : K) (hist : List K) (std : K),
      3 ≤ hist.length → 0 ≤ std → std ^ 2 = popVar hist → std ≠ 0 →
      ((AnomalyDetector.detect thr txId a hist std).is_anomaly = true ↔
        thr < |a - mean hist| / std) ∧
      (AnomalyDetector.detect thr txId a hist std).anomaly_score =
        |a - mean hist| / std) ∧
    (∀ (K : Type) [inst : LinearOrderedField K] (a : K) (hist : List K)
        (std : K),
      3 ≤ hist.length → 0 ≤ std → std ^ 2 = sampleVar hist → std ≠ 0 →
      ((detect_anomaly_zscore a hist std).1 = true ↔
        (2 : K) < |a - mean hist| / std)) ∧
    (settings_anomaly_threshold = 5/2 ∧
     (2 : ℚ) ≤ settings_anomaly_threshold ∧
     settings_anomaly_threshold ≤ 5/2) := by
  refine ⟨?_, ?_, by norm_num [settings_anomaly_threshold]⟩
  · intro K inst thr txId a hist std h3 hnn hsq h0
    rw [AnomalyDetector.detect_zscore_branch thr txId a hist std h3 h0]
    exact ⟨by simp, rfl⟩
  · intro K inst a hist std h3 hnn hsq h0
    rw [detect_anomaly_zscore_branch a hist std h3 h0]
    simp

/-- C5, witness: concrete samples whose variance is a perfect rational
square, so the exact standard deviation is rational
(`popVar [0, 0, 2, 2] = 1`, `sampleVar [0, 1, 2] = 1`). -/
theorem C5_witness :
    (((AnomalyDetector.detect (5/2 : ℚ) "t" 5 ([0, 0, 2, 2] : List ℚ)
          1).is_anomaly = true ↔
        (5/2 : ℚ) < |(5 : ℚ) - mean ([0, 0, 2, 2] : List ℚ)| / 1) ∧
      (AnomalyDetector.detect (5/2 : ℚ) "t" 5 ([0, 0, 2, 2] : List ℚ)
          1).anomaly_score =
        |(5 : ℚ) - mean ([0, 0, 2, 2] : List ℚ)| / 1) ∧
    ((detect_anomaly_zscore (10 : ℚ) ([0, 1, 2] : List ℚ) 1).1 = true ↔
      (2 : ℚ) < |(10 : ℚ) - mean ([0, 1, 2] : List ℚ)| / 1) :=
  ⟨C5_thm.1 ℚ (5/2) "t" 5 [0, 0, 2, 2] 1 (by norm_num) (by norm_num)
      (by norm_num [popVar, mean]) (by norm_num),
   C5_thm.2.1 ℚ 10 [0, 1, 2] 1 (by norm_num) (by norm_num)
      (by norm_num [sampleVar, mean]) (by norm_num)⟩

/-- C10: across all three branches of the python-ml `AnomalyDetector`
(insufficient data, zero standard deviation, z-score), the returned
confidence lies in `[0.10, 0.99]` — strictly between `0` and `1` — and the
returned anomaly score is non-negative; `0 ≤ std` is the defining property
of `numpy.std`. -/
theorem C10_thm :
    ∀ (K : Type) [inst : LinearOrderedField K] (thr : K) (txId : String)
      (a : K) (hist : List K) (std : K),
      0 ≤ std →
      (1/10 : K) ≤ (AnomalyDetector.detect thr txId a hist std).confidence ∧
      (AnomalyDetector.detect thr txId a hist std).confidence ≤ 99/100 ∧
      0 < (AnomalyDetector.detect thr txId a hist std).confidence ∧
      (AnomalyDetector.detect thr txId a hist std).confidence < 1 ∧
      0 ≤ (AnomalyDetector.detect thr txId a hist std).anomaly_score := by
  intro K inst thr txId a hist std hnn
  by_cases h3 : hist.length < 3
  · unfold AnomalyDetector.detect
    rw [if_pos h3]
    norm_num
  · by_cases h0 : std = 0
    · subst h0
      rw [AnomalyDetector.detect_zero_std thr txId a hist (by omega)]
      norm_num
    · rw [AnomalyDetector.detect_zscore_branch thr txId a hist std
        (by omega) h0]
      dsimp only
      have hstd : 0 < std := lt_of_le_of_ne hnn (Ne.symm h0)
      have hz : 0 ≤ |a - mean hist| / std :=
        div_nonneg (abs_nonneg _) hnn
      have hge : (1/10 : K) ≤
          min (99/100) (50/100 + |a - mean hist| / std / 10) :=
        le_min (by norm_num) (by linarith)
      have hle : min (99/100 : K) (50/100 + |a - mean hist| / std / 10) ≤
          99/100 := min_le_left _ _
      exact ⟨hge, hle, by linarith, by linarith, hz⟩

/-- C10, witness at a concrete input in every-branch form: the z-score
branch with exact standard deviation `1`. -/
theorem C10_witness :
    (1/10 : ℚ) ≤ (AnomalyDetector.detect (5/2 : ℚ) "t" 5
        ([0, 0, 2, 2] : List ℚ) 1).confidence ∧
    (AnomalyDetector.detect (5/2 : ℚ) "t" 5
        ([0, 0, 2, 2] : List ℚ) 1).confidence ≤ 99/100 ∧
    0 < (AnomalyDetector.detect (5/2 : ℚ) "t" 5
        ([0, 0, 2, 2] : List ℚ) 1).confidence ∧
    (AnomalyDetector.detect (5/2 : ℚ) "t" 5
        ([0, 0, 2, 2] : List ℚ) 1).confidence < 1 ∧
    0 ≤ (AnomalyDetector.detect (5/2 : ℚ) "t" 5
        ([0, 0, 2, 2] : List ℚ) 1).anomaly_score :=
  C10_thm ℚ (5/2) "t" 5 [0, 0, 2, 2] 1 (by norm_num)

/-- C2, counterexample: the cited python-ml `MerchantDetector.detect`
(`merchant.py` lines 50-93) refutes the claim as stated: on a transaction
whose description contains the pattern token `STARBUCKS`, the detector still
consults the external classifier — its result is whatever the classifier
returns (here merchant `"foo"` with confidence `0.2 < 0.90`), and a
classifier failure is propagated instead of ever using a rule. -/
theorem C2_counterexample :
    strContains (pyUpper starbucksTx.description) "STARBUCKS" = true ∧
    MerchantDetector.detect oracleFoo "gpt-4-turbo-preview" starbucksTx =
      .ok { transaction_id := "tx-sbux", merchant := "foo", confidence := 1/5,
            model := "gpt-4-turbo-preview", reasoning := none } ∧
    MerchantDetector.detect oracleDown "gpt-4-turbo-preview" starbucksTx =
      .error (.transport "api down") ∧
    ¬ ((1 : ℚ)/5 ≥ 90/100) := by
  refine ⟨rfl, ?_, rfl, by norm_num⟩
  norm_num [MerchantDetector.detect, oracleFoo, starbucksTx]

/-- C2, amended: only the ml-service rule-based detector satisfies the
claim: every description containing a known pattern token resolves through
`detect_merchant_simple` to the canonical merchant of a contained pattern
with the fixed confidence `0.95 ≥ 0.90` (in particular any description
containing `STARBUCKS` yields `"starbucks"`), with no external call (the
function consults nothing but the pattern table), and the endpoint labels
the result with the rule method tag `"pattern-matching"`; the python-ml
`MerchantDetector` has no rule table and always invokes the external
classifier. -/
theorem C2_thm :
    (∀ d : String, strContains (pyUpper d) "STARBUCKS" = true →
      detect_merchant_simple d = ("starbucks", 95/100)) ∧
    (∀ (d p m : String), (p, m) ∈ MERCHANT_PATTERNS →
      strContains (pyUpper d) p = true →
      ∃ q ∈ MERCHANT_PATTERNS, strContains (pyUpper d) q.1 = true ∧
        detect_merchant_simple d = (q.2, 95/100)) ∧
    ((95 : ℚ)/100 ≥ 90/100) ∧
    (∀ d : String, (detect_merchant_endpoint d).method = "pattern-matching") := by
  refine ⟨?_, ?_, by norm_num, fun d => rfl⟩
  · intro d h
    unfold detect_merchant_simple MERCHANT_PATTERNS
    simp [List.find?_cons, h]
  · intro d p m hmem hsub
    rcases hfind : MERCHANT_PATTERNS.find?
        (fun pm => strContains (pyUpper d) pm.1) with _ | q
    · exact absurd hsub
        (by simpa using (List.find?_eq_none.mp hfind) (p, m) hmem)
    · refine ⟨q, List.mem_of_find?_eq_some hfind,
        by simpa using List.find?_some hfind, ?_⟩
      unfold detect_merchant_simple
      rw [hfind]

/-- C2, witness for the amended theorem on the spec's example description. -/
theorem C2_witness :
    detect_merchant_simple "STARBUCKS #1234" = ("starbucks", 95/100) :=
  C2_thm.1 "STARBUCKS #1234" rfl

/-- On a rule-table miss, `CategoryDetector.detect` is its classifier
fallback. -/
theorem CategoryDetector.detect_rule_miss
    (classify : Transaction → String → Except LLMError CategoryRaw)
    (mdl : String) (tx : Transaction) (merchant : String)
    (hrule : CATEGORY_RULES.lookup merchant = none) :
    CategoryDetector.detect classify mdl tx merchant =
      CategoryDetector.detect_with_llm classify mdl tx merchant := by
  unfold CategoryDetector.detect
  rw [hrule]

/-- A parsed category response with both required fields reduces
`detect_with_llm` to the pydantic range check on the confidence. -/
theorem CategoryDetector.detect_with_llm_parsed
    (classify : Transaction → String → Except LLMError CategoryRaw)
    (mdl : String) (tx : Transaction) (merchant c : String) (conf : ℚ)
    (reas : Option String)
    (horacle : classify tx merchant =
      .ok { category := some c, confidence := some conf, reasoning := reas }) :
    CategoryDetector.detect_with_llm classify mdl tx merchant =
      if 0 ≤ conf ∧ conf ≤ 1 then
        .ok { transaction_id := tx.id, category := c, confidence := conf,
              method := Method.ml, rule_id := none, model := some mdl,
              reasoning := reas }
      else .error (.validation "confidence out of range") := by
  unfold CategoryDetector.detect_with_llm
  rw [horacle]

/-- C3, counterexample: `CategoryDetector._detect_with_llm`
(`category.py` lines 117-124) performs no vocabulary validation: a classifier
response whose label `"alcohol"` lies outside `CATEGORY_VOCAB` is returned
as a successful `method = ml` result, not surfaced as a failure (shown both
for the fallback entry point `detect` on a rule-miss merchant and for
`_detect_with_llm` itself). -/
theorem C3_counterexample :
    CategoryDetector.detect oracleAlcohol "gpt-4-turbo-preview" starbucksTx
        "liquorstore" =
      .ok { transaction_id := "tx-sbux", category := "alcohol",
            confidence := 9/10, method := Method.ml, rule_id := none,
            model := some "gpt-4-turbo-preview", reasoning := none } ∧
    CategoryDetector.detect_with_llm oracleAlcohol "gpt-4-turbo-preview"
        starbucksTx "liquorstore" =
      .ok { transaction_id := "tx-sbux", category := "alcohol",
            confidence := 9/10, method := Method.ml, rule_id := none,
            model := some "gpt-4-turbo-preview", reasoning := none } ∧
    "alcohol" ∉ CATEGORY_VOCAB := by
  have hllm : CategoryDetector.detect_with_llm oracleAlcohol
      "gpt-4-turbo-preview" starbucksTx "liquorstore" =
      .ok { transaction_id := "tx-sbux", category := "alcohol",
            confidence := 9/10, method := Method.ml, rule_id := none,
            model := some "gpt-4-turbo-preview", reasoning := none } := by
    rw [CategoryDetector.detect_with_llm_parsed oracleAlcohol
      "gpt-4-turbo-preview" starbucksTx "liquorstore" "alcohol" (9/10) none
      rfl, if_pos (by norm_num)]
    rfl
  refine ⟨?_, hllm, by decide⟩
  rw [CategoryDetector.detect_rule_miss oracleAlcohol "gpt-4-turbo-preview"
    starbucksTx "liquorstore" rfl]
  exact hllm

/-- C3, amended: on a rule miss the fallback label is NOT validated against
the fixed vocabulary: any category string parsed from a well-formed
classifier response (with in-range confidence) is returned verbatim as a
successful `method = ml` result; only transport failures, unparseable
bodies, missing required fields, and out-of-range confidence surface as
classification failures. -/
theorem C3_thm :
    ∀ (classify : Transaction → String → Except LLMError CategoryRaw)
      (mdl : String) (tx : Transaction) (merchant c : String)
      (raw : CategoryRaw) (conf : ℚ),
      CATEGORY_RULES.lookup merchant = none →
      classify tx merchant = .ok raw →
      raw.category = some c →
      raw.confidence = some conf →
      0 ≤ conf → conf ≤ 1 →
      CategoryDetector.detect classify mdl tx merchant =
        .ok { transaction_id := tx.id, category := c, confidence := conf,
              method := Method.ml, rule_id := none, model := some mdl,
              reasoning := raw.reasoning } := by
  intro classify mdl tx merchant c raw conf hrule horacle hcat hconf h0 h1
  obtain ⟨rc, rf, rr⟩ := raw
  dsimp only at hcat hconf ⊢
  subst hcat
  subst hconf
  rw [CategoryDetector.detect_rule_miss classify mdl tx merchant hrule,
    CategoryDetector.detect_with_llm_parsed classify mdl tx merchant c conf
      rr horacle, if_pos ⟨h0, h1⟩]

/-- C3, witness for the amended theorem: a vocabulary-external label
`"pet-supplies"` is accepted as a success. -/
theorem C3_witness :
    CategoryDetector.detect oraclePets "gpt-4-turbo-preview" starbucksTx
        "randomshop" =
      .ok { transaction_id := "tx-sbux", category := "pet-supplies",
            confidence := 7/10, method := Method.ml, rule_id := none,
            model := some "gpt-4-turbo-preview",
            reasoning := some "pet store" } :=
  C3_thm oraclePets "gpt-4-turbo-preview" starbucksTx "randomshop"
    "pet-supplies"
    ({ category := some "pet-supplies", confidence := some (7/10),
       reasoning := some "pet store" } : CategoryRaw) (7/10)
    rfl rfl rfl rfl (by norm_num) (by norm_num)

/-- A classifier failure propagates through `MerchantDetector.detect`. -/
theorem MerchantDetector.detect_classifier_error
    (classify : Transaction → Except LLMError MerchantRaw) (mdl : String)
    (tx : Transaction) (e : LLMError) (h : classify tx = .error e) :
    MerchantDetector.detect classify mdl tx = .error e := by
  unfold MerchantDetector.detect
  rw [h]

/-- A parsed response missing the `merchant` key fails with a `KeyError`. -/
theorem MerchantDetector.detect_missing_merchant
    (classify : Transaction → Except LLMError MerchantRaw) (mdl : String)
    (tx : Transaction) (rf : Option ℚ) (reas : Option String)
    (h : classify tx =
      .ok { merchant := none, confidence := rf, reasoning := reas }) :
    MerchantDetector.detect classify mdl tx =
      .error (.missingField "merchant") := by
  unfold MerchantDetector.detect
  rw [h]

/-- A parsed response missing the `confidence` key fails with a
`KeyError`. -/
theorem MerchantDetector.detect_missing_confidence
    (classify : Transaction → Except LLMError MerchantRaw) (mdl : String)
    (tx : Transaction) (m : String) (reas : Option String)
    (h : classify tx =
      .ok { merchant := some m, confidence := none, reasoning := reas }) :
    MerchantDetector.detect classify mdl tx =
      .error (.missingField "confidence") := by
  unfold MerchantDetector.detect
  rw [h]

/-- A fully parsed response reduces `MerchantDetector.detect` to the
pydantic range check on the confidence. -/
theorem MerchantDetector.detect_ok_parse
    (classify : Transaction → Except LLMError MerchantRaw) (mdl : String)
    (tx : Transaction) (m : String) (conf : ℚ) (reas : Option String)
    (h : classify tx =
      .ok { merchant := some m, confidence := some conf,
            reasoning := reas }) :
    MerchantDetector.detect classify mdl tx =
      if 0 ≤ conf ∧ conf ≤ 1 then
        .ok { transaction_id := tx.id, merchant := m, confidence := conf,
              model := mdl, reasoning := reas }
      else .error (.validation "confidence out of range") := by
  unfold MerchantDetector.detect
  rw [h]

/-- C8: the python-ml `MerchantDetector.detect` propagates every external
classifier failure — transport errors and unparseable bodies (classifier
`.error`), and a `KeyError` on a missing `merchant` or `confidence` key —
and never substitutes a default merchant result: a successful detection
exists only for a transported, parsed response carrying both required
fields with an in-range confidence, and is built from those fields. -/
theorem C8_thm :
    (∀ (classify : Transaction → Except LLMError MerchantRaw) (mdl : String)
        (tx : Transaction) (e : LLMError),
      classify tx = .error e →
      MerchantDetector.detect classify mdl tx = .error e) ∧
    (∀ (classify : Transaction → Except LLMError MerchantRaw) (mdl : String)
        (tx : Transaction) (raw : MerchantRaw),
      classify tx = .ok raw → raw.merchant = none →
      MerchantDetector.detect classify mdl tx =
        .error (.missingField "merchant")) ∧
    (∀ (classify : Transaction → Except LLMError MerchantRaw) (mdl : String)
        (tx : Transaction) (raw : MerchantRaw) (m : String),
      classify tx = .ok raw → raw.merchant = some m →
      raw.confidence = none →
      MerchantDetector.detect classify mdl tx =
        .error (.missingField "confidence")) ∧
    (∀ (classify : Transaction → Except LLMError MerchantRaw) (mdl : String)
        (tx : Transaction),
      (MerchantDetector.detect classify mdl tx).isOk = true →
      ∃ (raw : MerchantRaw) (m : String) (c : ℚ),
        classify tx = .ok raw ∧ raw.merchant = some m ∧
        raw.confidence = some c ∧ 0 ≤ c ∧ c ≤ 1 ∧
        MerchantDetector.detect classify mdl tx =
          .ok { transaction_id := tx.id, merchant := m, confidence := c,
                model := mdl, reasoning := raw.reasoning }) := by
  refine ⟨?_, ?_, ?_, ?_⟩
  · exact MerchantDetector.detect_classifier_error
  · intro classify mdl tx raw h hm
    obtain ⟨rm, rf, rr⟩ := raw
    dsimp only at hm
    subst hm
    exact MerchantDetector.detect_missing_merchant classify mdl tx rf rr h
  · intro classify mdl tx raw m h hm hc
    obtain ⟨rm, rf, rr⟩ := raw
    dsimp only at hm hc
    subst hm
    subst hc
    exact MerchantDetector.detect_missing_confidence classify mdl tx m rr h
  · intro classify mdl tx hok
    rcases horacle : classify tx with e | raw
    · rw [MerchantDetector.detect_classifier_error classify mdl tx e horacle]
        at hok
      simp [Except.isOk, Except.toBool] at hok
    · obtain ⟨rm, rf, rr⟩ := raw
      rcases rm with _ | m
      · rw [MerchantDetector.detect_missing_merchant classify mdl tx rf rr
          horacle] at hok
        simp [Except.isOk, Except.toBool] at hok
      · rcases rf with _ | c
        · rw [MerchantDetector.detect_missing_confidence classify mdl tx m rr
            horacle] at hok
          simp [Except.isOk, Except.toBool] at hok
        · have hstep := MerchantDetector.detect_ok_parse classify mdl tx m c
            rr horacle
          by_cases hrange : 0 ≤ c ∧ c ≤ 1
          · exact ⟨_, m, c, rfl, rfl, rfl, hrange.1, hrange.2,
              by rw [hstep, if_pos hrange]⟩
          · rw [hstep, if_neg hrange] at hok
            simp [Except.isOk, Except.toBool] at hok

/-- C8, witness: the transport-failure case at a concrete input. -/
theorem C8_witness :
    MerchantDetector.detect oracleDown "gpt-4-turbo-preview" starbucksTx =
      .error (LLMError.transport "api down") :=
  C8_thm.1 oracleDown "gpt-4-turbo-preview" starbucksTx
    (LLMError.transport "api down") rfl

/-- C9: for every transaction and any classifier oracle, the python-ml
`CategoryDetector` resolves merchant `"starbucks"` through the rule table:
category `"cafe"`, the rule's fixed confidence `0.98`, rule id
`"starbucks-rule"`, `method = rule`, and the oracle is never consulted (the
result is the same for every oracle); the ml-service
`detect_category_simple` likewise maps `"starbucks"` to `("cafe", 0.95)`. -/
theorem C9_thm :
    (∀ (classify : Transaction → String → Except LLMError CategoryRaw)
        (mdl : String) (tx : Transaction),
      CategoryDetector.detect classify mdl tx "starbucks" =
        .ok { transaction_id := tx.id, category := "cafe",
              confidence := 98/100, method := Method.rule,
              rule_id := some "starbucks-rule", model := none,
              reasoning :=
                some "Merchant \x27starbucks\x27 matches rule starbucks-rule" }) ∧
    detect_category_simple "starbucks" = ("cafe", 95/100) :=
  ⟨fun classify mdl tx => rfl, rfl⟩

/-- The batch collection loop keeps exactly the successful outcomes, in
their original order. -/
theorem collectBatchResults_fst
    (l : List (Transaction × Except LLMError MerchantDetection)) :
    (collectBatchResults l).1 = l.filterMap fun p => p.2.toOption := by
  induction l with
  | nil => rfl
  | cons hd tl ih =>
    obtain ⟨tx, r⟩ := hd
    cases r <;> simp [collectBatchResults, Except.toOption, ih]

/-- The batch collection loop logs exactly the failed outcomes, keyed by the
transaction identifier, in their original order. -/
theorem collectBatchResults_snd
    (l : List (Transaction × Except LLMError MerchantDetection)) :
    (collectBatchResults l).2 =
      l.filterMap fun p =>
        match p.2 with
        | .error e => some (p.1.id, e)
        | .ok _ => none := by
  induction l with
  | nil => rfl
  | cons hd tl ih =>
    obtain ⟨tx, r⟩ := hd
    cases r <;> simp [collectBatchResults, ih]

/-- Every input item becomes either a success or a logged failure. -/
theorem collectBatchResults_length
    (l : List (Transaction × Except LLMError MerchantDetection)) :
    (collectBatchResults l).1.length + (collectBatchResults l).2.length =
      l.length := by
  induction l with
  | nil => rfl
  | cons hd tl ih =>
    obtain ⟨tx, r⟩ := hd
    cases r <;> simp [collectBatchResults] <;> omega

/-- C7: `detect_merchants_batch` issues one detection per transaction (every
item ends up as a success or a logged failure), excludes an item's
classifier failure from the returned detections while logging it with that
transaction's identifier, and returns the successes in the relative order of
their source transactions (both outputs are order-preserving filters of the
per-transaction outcomes); concretely, over three transactions whose second
fails, it returns the first and third results in order and one failure log
keyed `"t2"`. -/
theorem C7_thm :
    (∀ (classify : Transaction → Except LLMError MerchantRaw) (mdl : String)
        (txs : List Transaction),
      (detect_merchants_batch classify mdl txs).1.length +
        (detect_merchants_batch classify mdl txs).2.length = txs.length) ∧
    (∀ (classify : Transaction → Except LLMError MerchantRaw) (mdl : String)
        (txs : List Transaction),
      (detect_merchants_batch classify mdl txs).1 =
        txs.filterMap fun tx =>
          (MerchantDetector.detect classify mdl tx).toOption) ∧
    (∀ (classify : Transaction → Except LLMError MerchantRaw) (mdl : String)
        (txs : List Transaction),
      (detect_merchants_batch classify mdl txs).2 =
        txs.filterMap fun tx =>
          match MerchantDetector.detect classify mdl tx with
          | .error e => some (tx.id, e)
          | .ok _ => none) ∧
    (detect_merchants_batch oracleFailSecond "gpt-4-turbo-preview"
        [txA, txB, txC] =
      ([{ transaction_id := "t1", merchant := "m1", confidence := 1/2,
          model := "gpt-4-turbo-preview", reasoning := none },
        { transaction_id := "t3", merchant := "m3", confidence := 1/2,
          model := "gpt-4-turbo-preview", reasoning := none }],
       [("t2", LLMError.transport "boom")])) := by
  refine ⟨?_, ?_, ?_, ?_⟩
  · intro classify mdl txs
    unfold detect_merchants_batch
    rw [collectBatchResults_length]
    simp
  · intro classify mdl txs
    unfold detect_merchants_batch
    rw [collectBatchResults_fst, List.filterMap_map]
    rfl
  · intro classify mdl txs
    unfold detect_merchants_batch
    rw [collectBatchResults_snd, List.filterMap_map]
    rfl
  · have hA : MerchantDetector.detect oracleFailSecond "gpt-4-turbo-preview"
        txA =
        .ok { transaction_id := "t1", merchant := "m1", confidence := 1/2,
              model := "gpt-4-turbo-preview", reasoning := none } := by
      rw [MerchantDetector.detect_ok_parse oracleFailSecond
        "gpt-4-turbo-preview" txA "m1" (1/2) none rfl,
        if_pos (by norm_num)]
      rfl
    have hB : MerchantDetector.detect oracleFailSecond "gpt-4-turbo-preview"
        txB = .error (.transport "boom") :=
      MerchantDetector.detect_classifier_error oracleFailSecond
        "gpt-4-turbo-preview" txB (.transport "boom") rfl
    have hC : MerchantDetector.detect oracleFailSecond "gpt-4-turbo-preview"
        txC =
        .ok { transaction_id := "t3", merchant := "m3", confidence := 1/2,
              model := "gpt-4-turbo-preview", reasoning := none } := by
      rw [MerchantDetector.detect_ok_parse oracleFailSecond
        "gpt-4-turbo-preview" txC "m3" (1/2) none rfl,
        if_pos (by norm_num)]
      rfl
    unfold detect_merchants_batch
    rw [List.map_cons, List.map_cons, List.map_cons, List.map_nil,
      hA, hB, hC]
    rfl

/-- C6: in the non-degenerate (z-score) branch the python-ml confidence
`min(0.99, 0.50 + z/10)` is monotonically non-decreasing in the z-score and
capped at `0.99`; the ml-service response boosts its confidence to `0.85`
for samples of at least 10 points (vs `0.60` below); and on the spec's
10-point sample with new amount `500` both variants report an anomaly with
confidence at least `0.85`, where `std` is the exact square root of each
variant's variance estimator. -/
theorem C6_thm :
    (∀ (K : Type) [inst : LinearOrderedField K] (thr : K) (txId : String)
        (a₁ a₂ : K) (hist : List K) (std : K),
      3 ≤ hist.length → 0 < std →
      |a₁ - mean hist| ≤ |a₂ - mean hist| →
      (AnomalyDetector.detect thr txId a₁ hist std).confidence ≤
        (AnomalyDetector.detect thr txId a₂ hist std).confidence) ∧
    (∀ (K : Type) [inst : LinearOrderedField K] (thr : K) (txId : String)
        (a : K) (hist : List K) (std : K),
      3 ≤ hist.length → std ≠ 0 →
      (AnomalyDetector.detect thr txId a hist std).confidence ≤ 99/100) ∧
    (∀ (K : Type) [inst : LinearOrderedField K] (a : K) (hist : List K)
        (std : K),
      10 ≤ hist.length →
      (detect_anomaly_mlservice a hist std).confidence = 85/100) ∧
    (∀ (K : Type) [inst : LinearOrderedField K] (a : K) (hist : List K)
        (std : K),
      hist.length < 10 →
      (detect_anomaly_mlservice a hist std).confidence = 60/100) ∧
    ((60 : ℚ)/100 < 85/100) ∧
    (∀ (K : Type) [inst : LinearOrderedField K] (std : K),
      0 < std → std ^ 2 = popVar (hist10 K) →
      (85/100 : K) ≤
        (AnomalyDetector.detect (5/2) "t" 500 (hist10 K) std).confidence ∧
      (AnomalyDetector.detect (5/2) "t" 500 (hist10 K) std).is_anomaly =
        true) ∧
    (∀ (K : Type) [inst : LinearOrderedField K] (std : K),
      0 < std → std ^ 2 = sampleVar (hist10 K) →
      (detect_anomaly_mlservice (500 : K) (hist10 K) std).confidence =
        85/100 ∧
      (detect_anomaly_mlservice (500 : K) (hist10 K) std).is_anomaly =
        true) := by
  refine ⟨?_, ?_, ?_, ?_, by norm_num, ?_, ?_⟩
  · intro K inst thr txId a1 a2 hist std h3 h0 hle
    have hne : std ≠ 0 := ne_of_gt h0
    rw [AnomalyDetector.detect_zscore_branch thr txId a1 hist std h3 hne,
      AnomalyDetector.detect_zscore_branch thr txId a2 hist std h3 hne]
    dsimp only
    have hz : |a1 - mean hist| / std ≤ |a2 - mean hist| / std := by gcongr
    exact min_le_min le_rfl (by linarith)
  · intro K inst thr txId a hist std h3 h0
    rw [AnomalyDetector.detect_zscore_branch thr txId a hist std h3 h0]
    dsimp only
    exact min_le_left _ _
  · intro K inst a hist std h10
    unfold detect_anomaly_mlservice
    dsimp only
    rw [if_pos h10]
  · intro K inst a hist std h10
    unfold detect_anomaly_mlservice
    dsimp only
    rw [if_neg (by omega)]
  · intro K inst std h0 hsq
    have hm : mean (hist10 K) = 107/10 := mean_hist10
    rw [popVar_hist10] at hsq
    have hne : std ≠ 0 := ne_of_gt h0
    rw [AnomalyDetector.detect_zscore_branch (5/2) "t" 500 (hist10 K) std
      (by simp [hist10]) hne]
    dsimp only
    rw [hm]
    have habs : |(500 : K) - 107/10| = 4893/10 := by
      rw [abs_of_pos (by norm_num)]
      norm_num
    rw [habs]
    have hstdle : std ≤ 2 := by nlinarith [sq_nonneg (std - 2)]
    have hz : (7/2 : K) ≤ 4893/10 / std := by
      rw [le_div_iff₀ h0]
      linarith
    refine ⟨le_min (by norm_num) (by linarith), ?_⟩
    simp only [decide_eq_true_eq]
    linarith
  · intro K inst std h0 hsq
    have hm : mean (hist10 K) = 107/10 := mean_hist10
    rw [sampleVar_hist10] at hsq
    have hne : std ≠ 0 := ne_of_gt h0
    constructor
    · unfold detect_anomaly_mlservice
      dsimp only
      rw [if_pos (by simp [hist10])]
    · unfold detect_anomaly_mlservice
      dsimp only
      rw [detect_anomaly_zscore_branch 500 (hist10 K) std
        (by simp [hist10]) hne]
      dsimp only
      rw [hm]
      have habs : |(500 : K) - 107/10| = 4893/10 := by
        rw [abs_of_pos (by norm_num)]
        norm_num
      rw [habs]
      simp only [decide_eq_true_eq]
      have hstdle : std ≤ 2 := by nlinarith [sq_nonneg (std - 2)]
      rw [lt_div_iff₀ h0]
      linarith

/-- C6, witness: the spec's 10-point sample at `K = ℝ`, with the exact
standard deviations `√(161/100)` (population, python-ml variant) and
`√(161/90)` (sample, ml-service variant). -/
theorem C6_witness :
    ((85/100 : ℝ) ≤ (AnomalyDetector.detect (5/2 : ℝ) "t" 500 (hist10 ℝ)
        (Real.sqrt (161/100))).confidence ∧
      (AnomalyDetector.detect (5/2 : ℝ) "t" 500 (hist10 ℝ)
        (Real.sqrt (161/100))).is_anomaly = true) ∧
    ((detect_anomaly_mlservice (500 : ℝ) (hist10 ℝ)
        (Real.sqrt (161/90))).confidence = 85/100 ∧
      (detect_anomaly_mlservice (500 : ℝ) (hist10 ℝ)
        (Real.sqrt (161/90))).is_anomaly = true) :=
  ⟨C6_thm.2.2.2.2.2.1 ℝ (Real.sqrt (161/100))
      (Real.sqrt_pos.mpr (by norm_num))
      (by rw [Real.sq_sqrt (by norm_num : (0:ℝ) ≤ 161/100), popVar_hist10]),
   C6_thm.2.2.2.2.2.2 ℝ (Real.sqrt (161/90))
      (Real.sqrt_pos.mpr (by norm_num))
      (by rw [Real.sq_sqrt (by norm_num : (0:ℝ) ≤ 161/90),
        sampleVar_hist10])⟩
